import Mathlib

/-
Verification of the Ember model-invocation and ensemble-orchestration core.

This file gives a shallow embedding, in Lean, of the claim-relevant parts of

  * `src/ember/core/registry/operator/core/ensemble.py`
    (`EnsembleOperator` and its input/output models), and
  * `src/ember/core/registry/model/providers/huggingface/huggingface_provider.py`
    (`HuggingFaceChatParameters`, `HuggingFaceModel.forward`,
    `HuggingFaceModel._count_tokens`, `HuggingFaceModel.calculate_usage`,
    `HuggingFaceModel._normalize_huggingface_model_name`),

and proves or refutes the frozen specification claims about them.

Modelling conventions:
  * Python dicts of keyword arguments are modelled as `PyDict := String → Option PyValue`;
    a key that is present with value `None` is `some PyValue.none`, an absent key is
    `none`.  `dict.pop(k, d)` is `dpop`, `dict.update` over non-`None` entries is
    `mergeProviderParams`.
  * Python floats are modelled as rationals (`ℚ`); `round(x, 6)` is `round6`.
  * External collaborators (the HF Hub catalog lookup, the tokenizer, the remote
    inference client, the local pipeline) are parameters collected in `HFDeps`;
    each is a fallible function returning `Except`.
  * Exceptions are values of `HFError`; a fallible computation returns `Except`.
  * The tenacity retry decorator on `forward` (parameters
    `wait_exponential(min=1, max=10)`, `stop_after_attempt(3)`, `reraise=True`
    appear in the source) is modelled by `retryTrace`, which also records the
    number of attempts made and the backoff waits performed.
-/

/-- A Python runtime value, as far as the provider's keyword dictionaries need:
`None`, booleans, ints, floats (as `ℚ`) and strings. -/
inductive PyValue where
  | none
  | bool (b : Bool)
  | int (i : ℤ)
  | rat (q : ℚ)
  | str (s : String)
  deriving DecidableEq

/-- A Python dict with string keys: a key that is absent maps to `none`; a key that
is present with value `None` maps to `some PyValue.none`. -/
abbrev PyDict := String → Option PyValue

/-- The empty dict. -/
def dempty : PyDict := fun _ => Option.none

/-- `d[k] = v` (insert or overwrite). -/
def dset (d : PyDict) (k : String) (v : PyValue) : PyDict :=
  fun k2 => if k2 = k then some v else d k2

/-- `del d[k]`. -/
def dremove (d : PyDict) (k : String) : PyDict :=
  fun k2 => if k2 = k then Option.none else d k2

/-- `d.pop(k, default)`: returns the stored value (even when that value is `None`)
and removes the key; returns `default` when the key is absent. -/
def dpop (d : PyDict) (k : String) (default : PyValue) : PyValue × PyDict :=
  match d k with
  | some v => (v, dremove d k)
  | Option.none => (default, d)

/-- Python truthiness of a `PyValue` (used by `if use_local:`). -/
def pyTruthy : PyValue → Bool
  | PyValue.none => false
  | PyValue.bool b => b
  | PyValue.int i => decide (i ≠ 0)
  | PyValue.rat q => decide (q ≠ 0)
  | PyValue.str s => decide (s ≠ "")

/-- The string stored in a `PyValue`; the dictionaries built by
`to_huggingface_kwargs` always store the prompt as a string, which is the only case
the source exercises (a non-string override of the `"prompt"` key is outside the
model). -/
def pyStr : PyValue → String
  | PyValue.str s => s
  | _ => ""

/-- Wrap an optional rational the way the pydantic model stores optional numeric
fields: a missing value becomes Python `None` (the key is still present). -/
def pyOfRatOpt : Option ℚ → PyValue
  | some q => PyValue.rat q
  | Option.none => PyValue.none

/-! ## Ensemble operator (`ensemble.py`) -/

/-- A language-model module: `LMModule.__call__(prompt=...) -> str`.  The modules are
external collaborators of the ensemble operator; only their call shape matters. -/
structure LMModule where
  run : String → String

/-- `EnsembleOperatorInputs` of `ensemble.py`: the query text. -/
structure EnsembleOperatorInputs where
  query : String

/-- `EnsembleOperatorOutputs` of `ensemble.py`: the ordered list of responses. -/
structure EnsembleOperatorOutputs where
  responses : List String
  deriving DecidableEq

/-- `EnsembleOperator`: holds the ordered list of `lm_modules` fixed at
construction. -/
structure EnsembleOperator where
  lm_modules : List LMModule

/-- `EnsembleOperator.forward`: renders the prompt once via the (external)
`specification.render_prompt` collaborator, passed here as the parameter
`render_prompt`, then evaluates the list comprehension
`[lm(prompt=rendered_prompt) for lm in self.lm_modules]`. -/
def EnsembleOperator.forward (op : EnsembleOperator)
    (render_prompt : EnsembleOperatorInputs → String)
    (inputs : EnsembleOperatorInputs) : EnsembleOperatorOutputs :=
  let rendered_prompt : String := render_prompt inputs
  { responses := op.lm_modules.map (fun lm => lm.run rendered_prompt) }

/-- Observable collaborator events of one `forward` run: a call to the
template-rendering collaborator, or a call to the `i`-th language-model module. -/
inductive EnsembleEv where
  | render
  | lmCall (i : Nat)
  deriving DecidableEq

/-- The list comprehension of `forward`, instrumented: Python evaluates it
left-to-right, calling `lm(prompt=rendered_prompt)` for each module in list order;
each call additionally emits its event. -/
def runModules (mods : List LMModule) (prompt : String) (i : Nat) :
    List String × List EnsembleEv :=
  match mods with
  | [] => ([], [])
  | m :: rest =>
    let tail := runModules rest prompt (i + 1)
    (m.run prompt :: tail.1, EnsembleEv.lmCall i :: tail.2)

/-- `forward`, instrumented with the trace of collaborator calls in evaluation
order: the single `render_prompt` call, then the module calls left-to-right. -/
def forwardTraced (op : EnsembleOperator)
    (render_prompt : EnsembleOperatorInputs → String)
    (inputs : EnsembleOperatorInputs) : EnsembleOperatorOutputs × List EnsembleEv :=
  let rendered_prompt : String := render_prompt inputs
  let body := runModules op.lm_modules rendered_prompt 0
  ({ responses := body.1 }, EnsembleEv.render :: body.2)

/-- A language-model module together with the wall-clock latency of one call,
used to make the timing of `forward`'s list comprehension explicit. -/
structure TimedLM where
  run : String → String
  latency : ℚ

/-- One module invocation of a timed `forward` run: its position, the instant the
call starts, the instant it returns, and its response. -/
structure TimedCall where
  index : Nat
  start : ℚ
  finish : ℚ
  response : String

/-- Timed semantics of the list comprehension in `forward`: Python evaluates the
comprehension sequentially, so each call begins at the clock value at which the
previous call returned and occupies the clock for its full latency. -/
def runModulesTimed (mods : List TimedLM) (prompt : String) (i : Nat) (clock : ℚ) :
    List TimedCall :=
  match mods with
  | [] => []
  | m :: rest =>
    { index := i, start := clock, finish := clock + m.latency,
      response := m.run prompt } ::
      runModulesTimed rest prompt (i + 1) (clock + m.latency)

/-- Timed run of `forward`'s module invocations, starting at clock 0. -/
def forwardTimed (mods : List TimedLM) (prompt : String) : List TimedCall :=
  runModulesTimed mods prompt 0 0

/-! ## HuggingFace provider: data model -/

/-- An exception of the provider layer (`ember.core.exceptions` /
`model_registry_exceptions`): the constructors carry the message and context
arguments the source passes when raising. -/
inductive HFError where
  | invalidPrompt (message provider model_name : String)
  | validationError (message provider : String)
  | providerAPIError (provider message : String)
  | httpError (status_code : Nat) (message : String)
  deriving DecidableEq

/-- `str(exc)`: the message of an exception, used when wrapping a cause. -/
def hfErrMsg : HFError → String
  | HFError.invalidPrompt m _ _ => m
  | HFError.validationError m _ => m
  | HFError.providerAPIError _ m => m
  | HFError.httpError _ m => m

/-- The universal `ChatRequest` (`chat_schemas.py`, shape per the spec's data
model): prompt, optional context, optional temperature, optional positive
max_tokens, optional timeout, and backend-specific overrides. -/
structure ChatRequest where
  prompt : String
  context : Option String := Option.none
  temperature : Option ℚ := Option.none
  max_tokens : Option ℤ := Option.none
  timeout : Option ℚ := Option.none
  provider_params : List (String × PyValue) := []

/-- The token-count block of a raw output (`raw_output["usage"]`); each field may
be absent. -/
structure UsageData where
  prompt_tokens : Option ℤ
  completion_tokens : Option ℤ
  deriving DecidableEq

/-- The raw output dict built by `forward`:
`{"generated_text": ..., "model": ..., "usage": {...}}`; the `"usage"` key may be
absent in an arbitrary `raw_output` handed to `calculate_usage`. -/
structure RawOutput where
  generated_text : String
  model : String
  usage : Option UsageData
  deriving DecidableEq

/-- `UsageStats` (`schemas/usage.py`): token counts and the cost in USD. -/
structure UsageStats where
  total_tokens : ℤ
  prompt_tokens : ℤ
  completion_tokens : ℤ
  cost_usd : ℚ
  deriving DecidableEq

/-- `ChatResponse`: response text, raw output and usage statistics. -/
structure ChatResponse where
  data : String
  raw_output : RawOutput
  usage : UsageStats
  deriving DecidableEq

/-- The per-model cost schedule (`model_info.cost`). -/
structure ModelCost where
  input_cost_per_thousand : ℚ
  output_cost_per_thousand : ℚ
  deriving DecidableEq

/-- A tokenizer: `tokenizer.encode(text)` returning the token ids, or failing. -/
abbrev Tokenizer := String → Except String (List Nat)

/-- The result of calling the local text-generation pipeline: either the usual
list of dicts (each dict modelled by its string-valued fields), or any non-list
result, carried via its string coercion `str(result)`. -/
inductive LocalResult where
  | items (l : List (String → Option String))
  | raw (s : String)

/-- The local generation pipeline, called as
`pipeline(prompt, max_new_tokens=..., temperature=..., **rest)`. -/
abbrev LocalPipeline := String → PyValue → PyValue → PyDict → Except HFError LocalResult

/-- The state and external collaborators of one `HuggingFaceModel` instance:
`model_info.name`, `model_info.cost`, the HF Hub catalog lookup
(`HfApi().model_info`), the cached tokenizer (`self.tokenizer`) and its loader
(`AutoTokenizer.from_pretrained`), the remote client call
(`self.client.text_generation(prompt=..., model=..., **kwargs)`), the cached local
pipeline (`self._local_model`) and its loader (`self._load_local_model`). -/
structure HFDeps where
  modelName : String
  cost : ModelCost
  lookup : String → Except String Unit
  tokenizer : Option Tokenizer
  loadTokenizer : String → Except String Tokenizer
  remoteCall : String → String → PyDict → Except HFError String
  localModel : Option LocalPipeline
  loadLocal : String → Except HFError LocalPipeline

/-! ## HuggingFace provider: parameter normalizer -/

/-- `HuggingFaceChatParameters` after pydantic validation: `max_tokens` is the
validated (positive) integer. -/
structure HuggingFaceChatParameters where
  prompt : String
  context : Option String
  temperature : Option ℚ
  timeout : Option ℚ
  max_tokens : ℤ

/-- Validation pipeline of `HuggingFaceChatParameters` as pydantic runs it on
`request.model_dump(exclude={"provider_params"})`: the mode="before" validator
`enforce_default_if_none` substitutes 512 for a missing `max_tokens`, then
`ensure_positive` rejects any value `<= 0` with a `ValidationError` naming the
offending value and the provider. -/
def mkHuggingFaceChatParameters (request : ChatRequest) :
    Except HFError HuggingFaceChatParameters :=
  let value : ℤ := request.max_tokens.getD 512
  if value ≤ 0 then
    Except.error (HFError.validationError
      ("max_tokens must be a positive integer, got " ++ toString value) "HuggingFace")
  else
    Except.ok { prompt := request.prompt, context := request.context,
                temperature := request.temperature, timeout := request.timeout,
                max_tokens := value }

/-- Modelled from the spec: `BaseChatParameters.build_prompt` is defined in
`providers/base_provider.py`, which is not under `src/`; the spec says the
normalizer "builds the outbound prompt by concatenating optional context and the
query". -/
def build_prompt (p : HuggingFaceChatParameters) : String :=
  match p.context with
  | some c => c ++ "\n\n" ++ p.prompt
  | Option.none => p.prompt

/-- `HuggingFaceChatParameters.to_huggingface_kwargs`: builds the prompt, maps the
universal `max_tokens` to the backend field `max_new_tokens`, and passes
`temperature` and `timeout` through unchanged (a `None` value is stored under a
present key, exactly as in the Python dict literal). -/
def to_huggingface_kwargs (p : HuggingFaceChatParameters) : PyDict :=
  dset (dset (dset (dset dempty
    "prompt" (PyValue.str (build_prompt p)))
    "max_new_tokens" (PyValue.int p.max_tokens))
    "temperature" (pyOfRatOpt p.temperature))
    "timeout" (pyOfRatOpt p.timeout)

/-- `hf_kwargs.update({k: v for k, v in provider_params.items() if v is not None})`:
drop the entries whose value is `None`, then write the remaining entries over the
normalizer-computed dict, with no re-validation. -/
def mergeProviderParams (hf_kwargs : PyDict)
    (provider_params : List (String × PyValue)) : PyDict :=
  (provider_params.filter (fun e => decide (e.2 ≠ PyValue.none))).foldl
    (fun d e => dset d e.1 e.2) hf_kwargs

/-! ## HuggingFace provider: model-name resolution and token counting -/

/-- Python's `s.startswith(pre)`, over the code points of the strings. -/
def pyStartsWith (s pre : String) : Bool :=
  decide (s.data.take pre.data.length = pre.data)

/-- Python's `s[n:]`: drop the first `n` code points. -/
def pyDropChars (s : String) (n : Nat) : String := String.mk (s.data.drop n)

/-- `HuggingFaceModel._normalize_huggingface_model_name`: strips a leading
`"huggingface:"` provider prefix (`raw_name[12:]`), verifies the name against the
Hub catalog, and on any lookup failure logs a warning and returns the fixed
default model.  Total: it never fails. -/
def normalize_model_name (lookup : String → Except String Unit)
    (raw_name : String) : String :=
  let raw_name := if pyStartsWith raw_name "huggingface:" then pyDropChars raw_name 12
                  else raw_name
  match lookup raw_name with
  | Except.ok _ => raw_name
  | Except.error _ => "mistralai/Mistral-7B-Instruct-v0.2"

/-- Counts the maximal runs of non-whitespace characters; `inWord` records
whether the previous character belonged to a word. -/
def pyWordCountAux : List Char → Bool → Nat
  | [], _ => 0
  | c :: rest, inWord =>
    if c.isWhitespace then pyWordCountAux rest false
    else (if inWord then 0 else 1) + pyWordCountAux rest true

/-- `len(text.split())` in Python: the number of whitespace-delimited words (runs
of whitespace collapse; the empty string has zero words). -/
def pyWordCount (text : String) : Nat := pyWordCountAux text.data false

/-- The tokenizer pipeline inside `_count_tokens`'s `try:` block: use the cached
tokenizer if present, otherwise resolve the model name and load one
(`AutoTokenizer.from_pretrained`), then `tokenizer.encode(text)`. -/
def tokenizeVia (deps : HFDeps) (text : String) : Except String (List Nat) := do
  let tok ← match deps.tokenizer with
    | some t => Except.ok t
    | Option.none => deps.loadTokenizer (normalize_model_name deps.lookup deps.modelName)
  tok text

/-- `HuggingFaceModel._count_tokens`: the exact tokenizer count when the pipeline
succeeds; on any failure (loading or encoding), logs a degradation warning and
falls back to the whitespace word count.  Total: it never fails.  (The source also
caches a freshly loaded tokenizer on `self`; that state change does not affect the
returned count.) -/
def count_tokens (deps : HFDeps) (text : String) : Nat :=
  match tokenizeVia deps text with
  | Except.ok tokens => tokens.length
  | Except.error _ => pyWordCount text

/-! ## HuggingFace provider: usage calculation -/

/-- Python's `round(x, 6)` over the rational model of floats: round to 6 decimal
places.  (The claim quotes the very same `round(..., 6)` expression as the code,
so the comparison does not depend on the tie-breaking convention of `round`.) -/
def round6 (q : ℚ) : ℚ := ((round (q * 1000000) : ℤ) : ℚ) / 1000000

/-- `HuggingFaceModel.calculate_usage`: reads `prompt_tokens` and
`completion_tokens` from `raw_output.get("usage", {})` with default 0, sums them,
and prices them with the per-model cost schedule, rounding to 6 decimals. -/
def calculate_usage (cost : ModelCost) (raw_output : RawOutput) : UsageStats :=
  let usage_data : UsageData :=
    raw_output.usage.getD { prompt_tokens := Option.none, completion_tokens := Option.none }
  let prompt_tokens : ℤ := usage_data.prompt_tokens.getD 0
  let completion_tokens : ℤ := usage_data.completion_tokens.getD 0
  let total_tokens : ℤ := prompt_tokens + completion_tokens
  let input_cost : ℚ := ((prompt_tokens : ℚ) / 1000) * cost.input_cost_per_thousand
  let output_cost : ℚ := ((completion_tokens : ℚ) / 1000) * cost.output_cost_per_thousand
  let total_cost : ℚ := round6 (input_cost + output_cost)
  { total_tokens := total_tokens, prompt_tokens := prompt_tokens,
    completion_tokens := completion_tokens, cost_usd := total_cost }

/-! ## HuggingFace provider: retry policy -/

/-- `stop_after_attempt(3)` of the `@retry` decorator on `forward`. -/
def stop_after_attempt : Nat := 3

/-- Modelled from the spec: the wait schedule of the external tenacity decorator
`wait_exponential(min=1, max=10)` (the tenacity library is not under `src/`; the
decorator's arguments are).  Per the spec, the wait before the `(n+2)`-nd attempt
"grows exponentially starting at 1 time-unit, capped at 10 time-units". -/
def hfWait (n : Nat) : ℚ := min ((2 : ℚ) ^ n) 10

/-- Result of running the retry decorator: the final outcome, the number of
attempts actually made, and the backoff waits performed between attempts. -/
structure RetryOutcome (ε α : Type) where
  result : Except ε α
  attempts : Nat
  waits : List ℚ

/-- One step of the tenacity loop: run attempt number `attempt` (1-based); on
success stop; on failure, if no attempts remain re-raise the last exception
unchanged (`reraise=True`), otherwise wait `hfWait (attempt - 1)` and retry.
tenacity's default retry condition retries on every `Exception`, so every error
is retried. -/
def retryGo {ε α : Type} (f : Nat → Except ε α) : Nat → Nat → RetryOutcome ε α
  | attempt, 0 => { result := f attempt, attempts := 1, waits := [] }
  | attempt, fuel + 1 =>
    match f attempt with
    | Except.ok a => { result := Except.ok a, attempts := 1, waits := [] }
    | Except.error _ =>
      let rest := retryGo f (attempt + 1) fuel
      { result := rest.result, attempts := rest.attempts + 1,
        waits := hfWait (attempt - 1) :: rest.waits }

/-- The retry decorator around `forward`: up to `stop_after_attempt` total
attempts, exponential backoff, re-raise unchanged.  `f n` is the behaviour of the
wrapped body on its `n`-th attempt (1-based). -/
def retryTrace {ε α : Type} (f : Nat → Except ε α) : RetryOutcome ε α :=
  retryGo f 1 (stop_after_attempt - 1)

/-! ## HuggingFace provider: `forward` -/

/-- What one attempt of `forward` did observably: the remote inference calls
issued (with exactly the arguments passed to `client.text_generation`), the
number of local pipeline calls, and the value popped for `"timeout"` on the
remote path. -/
structure RemoteCallRecord where
  prompt : String
  model : String
  kwargs : PyDict

/-- Trace of one `forward` attempt. -/
structure ForwardTrace where
  remoteCalls : List RemoteCallRecord
  localCalls : Nat
  poppedTimeout : Option PyValue

/-- An empty trace: no backend interaction happened. -/
def emptyTrace : ForwardTrace :=
  { remoteCalls := [], localCalls := 0, poppedTimeout := Option.none }

/-- The two `except` clauses around the inference call: a `requests` `HTTPError`
is re-raised unchanged (after logging when the status is in the 5xx range); any
other exception is wrapped into `ProviderAPIError` carrying the original message. -/
def wrapError (e : HFError) : HFError :=
  match e with
  | HFError.httpError s m => HFError.httpError s m
  | e => HFError.providerAPIError "HuggingFace" ("API error: " ++ hfErrMsg e)

/-- The local-inference branch of `forward`: lazily obtain the pipeline
(`self._local_model` or `self._load_local_model`), pop `prompt`,
`max_new_tokens` (default 512) and `temperature` (default 0.7) from the kwargs,
call the pipeline with the remaining kwargs, extract `generated_text` from the
usual list-of-dicts shape (stripping a leading echo of the prompt), fall back to
the string coercion of a non-list result, then build the raw output with token
counts and price it.  Errors anywhere in the branch flow through the generic
handler (`wrapError`).  (The source also caches a freshly loaded pipeline on
`self`; that state change is invisible to a single attempt's result.) -/
def localPath (deps : HFDeps) (model_id : String) (kw : PyDict) :
    Except HFError ChatResponse × ForwardTrace :=
  let pipelineE : Except HFError LocalPipeline :=
    match deps.localModel with
    | some p => Except.ok p
    | Option.none => deps.loadLocal model_id
  match pipelineE with
  | Except.error e => (Except.error (wrapError e), emptyTrace)
  | Except.ok pipeline =>
    let pp := dpop kw "prompt" (PyValue.str "")
    let pm := dpop pp.2 "max_new_tokens" (PyValue.int 512)
    let pt := dpop pm.2 "temperature" (PyValue.rat (7 / 10))
    let prompt := pyStr pp.1
    let tr : ForwardTrace :=
      { remoteCalls := [], localCalls := 1, poppedTimeout := Option.none }
    match pipeline prompt pm.1 pt.1 pt.2 with
    | Except.error e => (Except.error (wrapError e), tr)
    | Except.ok result =>
      let generated_text : String :=
        match result with
        | LocalResult.items (first :: _) =>
          let g := (first "generated_text").getD ""
          if g.startsWith prompt then (g.drop prompt.length).trimLeft else g
        | LocalResult.items [] => "[]"
        | LocalResult.raw s => s
      let raw_output : RawOutput :=
        { generated_text := generated_text, model := model_id,
          usage := some { prompt_tokens := some (count_tokens deps prompt : ℤ),
                          completion_tokens := some (count_tokens deps generated_text : ℤ) } }
      let usage_stats := calculate_usage deps.cost raw_output
      (Except.ok { data := generated_text, raw_output := raw_output,
                   usage := usage_stats }, tr)

/-- The remote-inference branch of `forward`: pop `"timeout"` with default 30
(`timeout = hf_kwargs.pop("timeout", 30)`), pop the prompt, then call
`self.client.text_generation(prompt=prompt, model=model_id, **hf_kwargs)` — note
the popped timeout is not among the arguments of that call — treat the raw
textual result as `generated_text`, build the raw output with token counts and
price it.  Errors from the call flow through the generic handler. -/
def remotePath (deps : HFDeps) (model_id : String) (kw : PyDict) :
    Except HFError ChatResponse × ForwardTrace :=
  let pt := dpop kw "timeout" (PyValue.int 30)
  let pp := dpop pt.2 "prompt" (PyValue.str "")
  let prompt := pyStr pp.1
  let tr : ForwardTrace :=
    { remoteCalls := [{ prompt := prompt, model := model_id, kwargs := pp.2 }],
      localCalls := 0, poppedTimeout := some pt.1 }
  match deps.remoteCall prompt model_id pp.2 with
  | Except.error e => (Except.error (wrapError e), tr)
  | Except.ok generated_text =>
    let raw_output : RawOutput :=
      { generated_text := generated_text, model := model_id,
        usage := some { prompt_tokens := some (count_tokens deps prompt : ℤ),
                        completion_tokens := some (count_tokens deps generated_text : ℤ) } }
    let usage_stats := calculate_usage deps.cost raw_output
    (Except.ok { data := generated_text, raw_output := raw_output,
                 usage := usage_stats }, tr)

/-- One attempt of `HuggingFaceModel.forward` (the body the `@retry` decorator
wraps): reject an empty prompt with `InvalidPromptError`, validate and convert
the parameters (`HuggingFaceChatParameters`), merge the non-`None`
`provider_params`, resolve the model name, pop `use_local_model` (default
`False`), then run the local or the remote branch. -/
def forwardAttempt (deps : HFDeps) (request : ChatRequest) :
    Except HFError ChatResponse × ForwardTrace :=
  if request.prompt = "" then
    (Except.error (HFError.invalidPrompt "HuggingFace prompt cannot be empty."
        "HuggingFace" deps.modelName), emptyTrace)
  else
    match mkHuggingFaceChatParameters request with
    | Except.error e => (Except.error e, emptyTrace)
    | Except.ok hf_parameters =>
      let hf_kwargs := mergeProviderParams (to_huggingface_kwargs hf_parameters)
        request.provider_params
      let model_id := normalize_model_name deps.lookup deps.modelName
      let pu := dpop hf_kwargs "use_local_model" (PyValue.bool false)
      if pyTruthy pu.1 then localPath deps model_id pu.2
      else remotePath deps model_id pu.2

/-- `forward` as invoked by callers: the retry decorator around the attempt body.
The body is deterministic in `(deps, request)`, so every attempt behaves alike. -/
def forwardRetried (deps : HFDeps) (request : ChatRequest) :
    RetryOutcome HFError ChatResponse :=
  retryTrace (fun _ => (forwardAttempt deps request).1)

/-! ## Concrete collaborator instances used by the closed theorems -/

/-- A tokenizer that returns one token id per character. -/
def charTokenizer : Tokenizer := fun s => Except.ok (List.replicate s.length 0)

/-- Collaborators that all succeed: the catalog lookup accepts every name, the
tokenizer is cached, the remote call returns `"out"`, the local path is never
used. -/
def depsOk : HFDeps :=
  { modelName := "mistralai/Mistral-7B-Instruct-v0.2",
    cost := { input_cost_per_thousand := 1 / 1000, output_cost_per_thousand := 2 / 1000 },
    lookup := fun _ => Except.ok (),
    tokenizer := some charTokenizer,
    loadTokenizer := fun _ => Except.ok charTokenizer,
    remoteCall := fun _ _ _ => Except.ok "out",
    localModel := Option.none,
    loadLocal := fun _ => Except.error (HFError.providerAPIError "HuggingFace" "no local model") }

/-- Collaborators whose tokenizer pipeline always fails (both the cached encode
and any reload), forcing the word-count fallback. -/
def depsTokFail : HFDeps :=
  { depsOk with
    tokenizer := some (fun _ => Except.error "tokenizer exploded"),
    loadTokenizer := fun _ => Except.error "load failed" }

/-- A request with an empty prompt and otherwise default fields. -/
def reqEmptyPrompt : ChatRequest := { prompt := "" }

/-- A valid remote request that leaves `timeout` (and `max_tokens`) unset. -/
def reqNoTimeout : ChatRequest := { prompt := "hi", temperature := some (7 / 10) }

/-- A valid request with all universal fields set except `timeout`. -/
def reqSmall : ChatRequest :=
  { prompt := "q", temperature := some (1 / 2), max_tokens := some 7 }

/-- A request whose `max_tokens` is the non-positive boundary value 0. -/
def reqZeroTokens : ChatRequest := { prompt := "x", max_tokens := some 0 }

/-- An attempt behaviour that fails on attempts 1 and 2 and succeeds on
attempt 3. -/
def attemptsThenOk : Nat → Except String Nat :=
  fun n => if n < 3 then Except.error ("fail " ++ toString n) else Except.ok 7

/-- An attempt behaviour that fails on every attempt, with a distinct error per
attempt. -/
def attemptsAllFail : Nat → Except String Nat :=
  fun n => Except.error ("fail " ++ toString n)

/-! ## Helper lemmas -/

/-- The instrumented comprehension returns exactly the mapped responses. -/
theorem runModules_fst (mods : List LMModule) (prompt : String) (i : Nat) :
    (runModules mods prompt i).1 = mods.map (fun lm => lm.run prompt) := by
  induction mods generalizing i with
  | nil => simp [runModules]
  | cons m rest ih => simp [runModules, ih]

/-- The instrumented comprehension emits only module-call events. -/
theorem runModules_no_render (mods : List LMModule) (prompt : String) (i : Nat) :
    EnsembleEv.render ∉ (runModules mods prompt i).2 := by
  induction mods generalizing i with
  | nil => simp [runModules]
  | cons m rest ih => simp [runModules]; exact ih (i + 1)

/-- In the timed sequential semantics, every adjacent pair of calls meets
head-to-tail: a call finishes exactly when the next one starts. -/
theorem runModulesTimed_chain (mods : List TimedLM) (prompt : String) (i : Nat)
    (clock : ℚ) :
    List.Chain' (fun c1 c2 => c1.finish = c2.start)
      (runModulesTimed mods prompt i clock) := by
  induction mods generalizing i clock with
  | nil => simp [runModulesTimed]
  | cons m rest ih =>
    rw [runModulesTimed, List.chain'_cons']
    refine ⟨?_, ih _ _⟩
    intro b hb
    cases rest with
    | nil => simp [runModulesTimed] at hb
    | cons m2 r2 =>
      simp [runModulesTimed] at hb
      rw [← hb]

/-! ## Claim theorems -/

/-- C1: For every `EnsembleOperator` over an ordered list of N language-model
modules and every input, `forward` renders the prompt exactly once (the trace of
collaborator calls contains exactly one render event) and returns an output whose
`responses` list has length N, where `responses[i]` is the i-th module's response
(in construction order) to that identical rendered prompt.  The source evaluates
the calls sequentially, so completion order cannot permute the result. -/
theorem ensemble_forward_spec (op : EnsembleOperator)
    (render_prompt : EnsembleOperatorInputs → String)
    (inputs : EnsembleOperatorInputs) :
    (op.forward render_prompt inputs).responses.length = op.lm_modules.length ∧
    (∀ i : Nat, (op.forward render_prompt inputs).responses[i]? =
      (op.lm_modules[i]?).map (fun lm => lm.run (render_prompt inputs))) ∧
    (forwardTraced op render_prompt inputs).1 = op.forward render_prompt inputs ∧
    (forwardTraced op render_prompt inputs).2.count EnsembleEv.render = 1 := by
  refine ⟨by simp [EnsembleOperator.forward], ?_, ?_, ?_⟩
  · intro i
    simp [EnsembleOperator.forward]
  · simp [forwardTraced, EnsembleOperator.forward, runModules_fst]
  · show (EnsembleEv.render :: (runModules op.lm_modules (render_prompt inputs) 0).2).count
      EnsembleEv.render = 1
    rw [List.count_cons_self, List.count_eq_zero.mpr (runModules_no_render _ _ _)]

/-- C7 (refuted — the code is sequential, not concurrent): the spec and the
module's own docstring ("Parallel Ensemble Pattern", "Executes the same query
across multiple language models in parallel") require concurrent adapter
invocation, but `forward` evaluates a plain Python list comprehension, which runs
the module calls strictly one after another.  In the timed semantics of that
comprehension, every call finishes exactly when the next one starts (no two
invocations ever overlap), and for two modules of latency 1 each the calls start
at 0 and 1 and finish at 1 and 2: the run occupies the sum of the latencies
(2 time-units), whereas parallel worker execution would overlap them
(max, 1 time-unit). -/
theorem ensemble_sequential_timing :
    (∀ (mods : List TimedLM) (prompt : String),
      List.Chain' (fun c1 c2 => c1.finish = c2.start) (forwardTimed mods prompt)) ∧
    (forwardTimed [{ run := fun _ => "A", latency := 1 },
        { run := fun _ => "B", latency := 1 }] "p").map TimedCall.start = [0, 1] ∧
    (forwardTimed [{ run := fun _ => "A", latency := 1 },
        { run := fun _ => "B", latency := 1 }] "p").map TimedCall.finish = [1, 2] := by
  refine ⟨fun mods prompt => runModulesTimed_chain mods prompt 0 0, ?_, ?_⟩
  · simp [forwardTimed, runModulesTimed]
  · simp [forwardTimed, runModulesTimed]
    norm_num

/-- `round6` always produces an integer multiple of 10^-6. -/
theorem round6_mul_million (q : ℚ) :
    round6 q * 1000000 = ((round (q * 1000000) : ℤ) : ℚ) := by
  rw [round6, div_mul_cancel₀ _ (by norm_num : (1000000 : ℚ) ≠ 0)]

/-- C3: `calculate_usage` is a pure function of the raw output and the cost
schedule (determinism is the statement that its value is exactly the expression
below): `prompt_tokens` and `completion_tokens` are read from `raw_output.usage`
with default 0 at both levels (so it never fails), `total_tokens` is their sum,
and `cost_usd = round(prompt_tokens/1000 * input_cost_per_thousand +
completion_tokens/1000 * output_cost_per_thousand, 6)`; moreover `cost_usd` is an
integer multiple of 10^-6, i.e. rounded to exactly 6 decimal places. -/
theorem calculate_usage_spec (cost : ModelCost) (raw_output : RawOutput) :
    (calculate_usage cost raw_output =
      let usage_data := raw_output.usage.getD
        { prompt_tokens := Option.none, completion_tokens := Option.none }
      let p : ℤ := usage_data.prompt_tokens.getD 0
      let c : ℤ := usage_data.completion_tokens.getD 0
      { total_tokens := p + c, prompt_tokens := p, completion_tokens := c,
        cost_usd := round6 (((p : ℚ) / 1000) * cost.input_cost_per_thousand +
          ((c : ℚ) / 1000) * cost.output_cost_per_thousand) }) ∧
    ∃ n : ℤ, (calculate_usage cost raw_output).cost_usd * 1000000 = (n : ℚ) := by
  exact ⟨rfl, _, round6_mul_million _⟩

/-- C4: For every `ChatRequest` with a non-empty prompt and positive-or-absent
`max_tokens`, validation succeeds and produces `max_tokens` equal to the requested
value when one was given and 512 when absent — never a value `<= 0` — and
`to_huggingface_kwargs` maps the universal `max_tokens` field to the backend field
`max_new_tokens` (no `max_tokens` key remains) while passing `temperature` and
`timeout` through unchanged. -/
theorem hf_chat_parameters_spec (request : ChatRequest)
    (_hprompt : request.prompt ≠ "")
    (hmax : ∀ m : ℤ, request.max_tokens = some m → 0 < m) :
    ∃ p : HuggingFaceChatParameters,
      mkHuggingFaceChatParameters request = Except.ok p ∧
      (∀ m : ℤ, request.max_tokens = some m → p.max_tokens = m) ∧
      (request.max_tokens = Option.none → p.max_tokens = 512) ∧
      0 < p.max_tokens ∧
      to_huggingface_kwargs p "max_new_tokens" = some (PyValue.int p.max_tokens) ∧
      to_huggingface_kwargs p "max_tokens" = Option.none ∧
      to_huggingface_kwargs p "temperature" = some (pyOfRatOpt request.temperature) ∧
      to_huggingface_kwargs p "timeout" = some (pyOfRatOpt request.timeout) := by
  have hpos : 0 < request.max_tokens.getD 512 := by
    cases h : request.max_tokens with
    | none => norm_num
    | some m => simpa using hmax m h
  refine ⟨{ prompt := request.prompt, context := request.context,
            temperature := request.temperature, timeout := request.timeout,
            max_tokens := request.max_tokens.getD 512 }, ?_, ?_, ?_, hpos, ?_, ?_, ?_, ?_⟩
  · rw [mkHuggingFaceChatParameters]
    simp [not_le.mpr hpos]
  · intro m hm
    simp [hm]
  · intro hm
    simp [hm]
  · simp [to_huggingface_kwargs, dset, dempty]
  · simp [to_huggingface_kwargs, dset, dempty]
  · simp [to_huggingface_kwargs, dset, dempty]
  · simp [to_huggingface_kwargs, dset, dempty]

/-- Witness for C4 at a concrete input: prompt `"q"`, `max_tokens = 7`,
`temperature = 1/2`, `timeout` unset. -/
theorem hf_chat_parameters_spec_witness :
    ∃ p : HuggingFaceChatParameters,
      mkHuggingFaceChatParameters reqSmall = Except.ok p ∧
      (∀ m : ℤ, reqSmall.max_tokens = some m → p.max_tokens = m) ∧
      (reqSmall.max_tokens = Option.none → p.max_tokens = 512) ∧
      0 < p.max_tokens ∧
      to_huggingface_kwargs p "max_new_tokens" = some (PyValue.int p.max_tokens) ∧
      to_huggingface_kwargs p "max_tokens" = Option.none ∧
      to_huggingface_kwargs p "temperature" = some (pyOfRatOpt reqSmall.temperature) ∧
      to_huggingface_kwargs p "timeout" = some (pyOfRatOpt reqSmall.timeout) :=
  hf_chat_parameters_spec reqSmall (by decide)
    (fun m hm => (Option.some.inj hm) ▸ (by decide : (0 : ℤ) < 7))

/-- C6: For every text input, `_count_tokens` is total (it returns a `Nat`, hence
a non-negative integer, and never raises): it returns the exact tokenizer count
whenever the tokenizer pipeline succeeds and the whitespace word count (with a
degradation warning logged) on any tokenizer failure; on the empty string the
fallback is 0. -/
theorem count_tokens_spec (deps : HFDeps) (text : String) :
    (∀ tokens : List Nat, tokenizeVia deps text = Except.ok tokens →
      count_tokens deps text = tokens.length) ∧
    (∀ e : String, tokenizeVia deps text = Except.error e →
      count_tokens deps text = pyWordCount text) ∧
    0 ≤ count_tokens deps text ∧
    pyWordCount "" = 0 := by
  refine ⟨?_, ?_, Nat.zero_le _, by decide⟩
  · intro tokens h
    rw [count_tokens, h]
  · intro e h
    rw [count_tokens, h]

/-- Witness for C6: with a tokenizer whose pipeline fails, `"hello world"` falls
back to its word count 2; with the character tokenizer, `"abc"` counts 3. -/
theorem count_tokens_spec_witness :
    count_tokens depsTokFail "hello world" = 2 ∧
    count_tokens depsOk "abc" = 3 :=
  ⟨((count_tokens_spec depsTokFail "hello world").2.1 "tokenizer exploded" rfl).trans
      (by decide),
    ((count_tokens_spec depsOk "abc").1 [0, 0, 0] rfl).trans rfl⟩

/-- C9: `_normalize_huggingface_model_name` first strips a leading
`"huggingface:"` provider prefix, then queries the model catalog with the
stripped name; on success it returns that name, and on any lookup failure it
returns the one fixed default model `"mistralai/Mistral-7B-Instruct-v0.2"`
(recording a warning).  Being a total Lean function, it never raises: every
lookup failure is recovered locally. -/
theorem normalize_model_name_spec (lookup : String → Except String Unit)
    (raw_name : String) :
    (lookup (if pyStartsWith raw_name "huggingface:" then pyDropChars raw_name 12
        else raw_name) = Except.ok () →
      normalize_model_name lookup raw_name =
        (if pyStartsWith raw_name "huggingface:" then pyDropChars raw_name 12
         else raw_name)) ∧
    (∀ e : String,
      lookup (if pyStartsWith raw_name "huggingface:" then pyDropChars raw_name 12
          else raw_name) = Except.error e →
      normalize_model_name lookup raw_name = "mistralai/Mistral-7B-Instruct-v0.2") := by
  constructor
  · intro h
    rw [normalize_model_name]
    simp only [h]
  · intro e h
    rw [normalize_model_name]
    simp only [h]

/-- Witness for C9: a catalog that accepts every name lets the prefix-stripped
name through; a catalog that rejects every name yields the fixed default. -/
theorem normalize_model_name_spec_witness :
    normalize_model_name (fun _ => Except.ok ()) "huggingface:org/model" = "org/model" ∧
    normalize_model_name (fun _ => Except.error "404") "org/missing" =
      "mistralai/Mistral-7B-Instruct-v0.2" :=
  ⟨((normalize_model_name_spec (fun _ => Except.ok ()) "huggingface:org/model").1
      rfl).trans (by decide),
    (normalize_model_name_spec (fun _ => Except.error "404") "org/missing").2 "404" rfl⟩

/-- The retry loop makes at most `fuel + 1` attempts. -/
theorem retryGo_attempts_le {ε α : Type} (f : Nat → Except ε α) (fuel attempt : Nat) :
    (retryGo f attempt fuel).attempts ≤ fuel + 1 := by
  induction fuel generalizing attempt with
  | zero => simp [retryGo]
  | succ n ih =>
    rw [retryGo]
    cases h : f attempt with
    | ok a => simp
    | error e =>
      simp only []
      have := ih (attempt + 1)
      omega

/-- The backoff wait is at least the 1-time-unit floor. -/
theorem one_le_hfWait (n : Nat) : 1 ≤ hfWait n := by
  rw [hfWait]
  refine le_min ?_ (by norm_num)
  have h : (2 : ℚ) ^ 0 ≤ 2 ^ n := pow_le_pow_right₀ one_le_two (Nat.zero_le n)
  simpa using h

/-- The backoff wait doubles until it reaches the 10-time-unit cap. -/
theorem hfWait_succ (n : Nat) : hfWait (n + 1) = min (2 * hfWait n) 10 := by
  rw [hfWait, hfWait]
  rcases le_total ((2 : ℚ) ^ n) 10 with h | h
  · rw [min_eq_left h, pow_succ]
    ring_nf
  · rw [min_eq_right h, min_eq_right (by norm_num : (10 : ℚ) ≤ 2 * 10)]
    refine min_eq_right (h.trans ?_)
    exact pow_le_pow_right₀ one_le_two (Nat.le_succ n)

/-- C5: the retry decorator on `forward` makes at most 3 total attempts; a body
that fails exactly twice and succeeds on the third attempt yields that success
(on the third attempt); a body that fails all three times re-raises the third
attempt's exception unchanged after performing the two backoff waits; and the
wait schedule grows exponentially (doubling up to the cap) starting at 1
time-unit and capped at 10 time-units. -/
theorem hf_retry_policy_spec {ε α : Type} (f : Nat → Except ε α) :
    (retryTrace f).attempts ≤ stop_after_attempt ∧
    (∀ (e1 e2 : ε) (a : α), f 1 = Except.error e1 → f 2 = Except.error e2 →
      f 3 = Except.ok a →
      (retryTrace f).result = Except.ok a ∧ (retryTrace f).attempts = 3) ∧
    (∀ e1 e2 e3 : ε, f 1 = Except.error e1 → f 2 = Except.error e2 →
      f 3 = Except.error e3 →
      (retryTrace f).result = Except.error e3 ∧ (retryTrace f).attempts = 3 ∧
      (retryTrace f).waits = [hfWait 0, hfWait 1]) ∧
    (∀ n : Nat, 1 ≤ hfWait n ∧ hfWait n ≤ 10 ∧
      hfWait (n + 1) = min (2 * hfWait n) 10) ∧
    hfWait 0 = 1 := by
  refine ⟨?_, ?_, ?_, fun n => ⟨one_le_hfWait n, min_le_right _ _, hfWait_succ n⟩,
    by rw [hfWait]; norm_num⟩
  · simpa [retryTrace, stop_after_attempt] using retryGo_attempts_le f 2 1
  · intro e1 e2 a h1 h2 h3
    constructor <;> simp [retryTrace, stop_after_attempt, retryGo, h1, h2, h3]
  · intro e1 e2 e3 h1 h2 h3
    refine ⟨?_, ?_, ?_⟩ <;> simp [retryTrace, stop_after_attempt, retryGo, h1, h2, h3]

/-- Witness for C5: with the fail-fail-succeed body the run succeeds with value 7
after 3 attempts; with the always-failing body the run re-raises the third
error and performed the two waits. -/
theorem hf_retry_policy_spec_witness :
    (retryTrace attemptsThenOk).result = Except.ok 7 ∧
    (retryTrace attemptsThenOk).attempts = 3 ∧
    (retryTrace attemptsAllFail).result = Except.error "fail 3" ∧
    (retryTrace attemptsAllFail).waits = [hfWait 0, hfWait 1] ∧
    1 ≤ hfWait 4 :=
  have h1 := (hf_retry_policy_spec attemptsThenOk).2.1 "fail 1" "fail 2" 7 rfl rfl rfl
  have h2 := (hf_retry_policy_spec attemptsAllFail).2.2.1 "fail 1" "fail 2" "fail 3"
    rfl rfl rfl
  ⟨h1.1, h1.2, h2.1, h2.2.2, ((hf_retry_policy_spec attemptsThenOk).2.2.2.1 4).1⟩

/-- Folding `dset` over entries that never bind `k` leaves `k` unchanged. -/
theorem foldl_dset_of_not_bound (es : List (String × PyValue)) (d : PyDict)
    (k : String) (h : ∀ v : PyValue, (k, v) ∉ es) :
    (es.foldl (fun d e => dset d e.1 e.2) d) k = d k := by
  induction es generalizing d with
  | nil => rfl
  | cons e rest ih =>
    have hne : k ≠ e.1 := by
      intro hk
      exact h e.2 (List.mem_cons.mpr (Or.inl (by rw [hk])))
    rw [List.foldl_cons, ih (dset d e.1 e.2) (fun v hv => h v (List.mem_cons_of_mem _ hv))]
    simp [dset, hne]

/-- Folding `dset` over entries whose only binding of `k` is `v` stores `v`
at `k`. -/
theorem foldl_dset_of_bound (es : List (String × PyValue)) (d : PyDict)
    (k : String) (v : PyValue) (hmem : (k, v) ∈ es)
    (huniq : ∀ v2 : PyValue, (k, v2) ∈ es → v2 = v) :
    (es.foldl (fun d e => dset d e.1 e.2) d) k = some v := by
  induction es generalizing d with
  | nil => cases hmem
  | cons e rest ih =>
    rw [List.foldl_cons]
    by_cases hrest : ∀ v2 : PyValue, (k, v2) ∉ rest
    · have he : e = (k, v) := by
        rcases List.mem_cons.mp hmem with h | h
        · exact h.symm
        · exact absurd h (hrest v)
      rw [foldl_dset_of_not_bound rest _ k hrest]
      simp [he, dset]
    · push_neg at hrest
      obtain ⟨v2, hv2⟩ := hrest
      have hv2v : v2 = v := huniq v2 (List.mem_cons_of_mem _ hv2)
      have hmem2 : (k, v) ∈ rest := by
        rw [← hv2v]
        exact hv2
      exact ih (dset d e.1 e.2) hmem2
        (fun v3 hv3 => huniq v3 (List.mem_cons_of_mem _ hv3))

/-- C10: merging `provider_params` into the normalizer-computed kwargs drops
every entry whose value is `None` (an unset override never clobbers a
normalizer-computed default), while every entry with a non-`None` value
overwrites whatever the normalizer computed for that backend field, with no
re-validation of the new value. -/
theorem merge_provider_params_spec (hf_kwargs : PyDict)
    (provider_params : List (String × PyValue)) (k : String) :
    ((∀ v : PyValue, (k, v) ∈ provider_params → v = PyValue.none) →
      mergeProviderParams hf_kwargs provider_params k = hf_kwargs k) ∧
    (∀ v : PyValue, (k, v) ∈ provider_params → v ≠ PyValue.none →
      (∀ v2 : PyValue, (k, v2) ∈ provider_params → v2 = v) →
      mergeProviderParams hf_kwargs provider_params k = some v) := by
  constructor
  · intro hall
    rw [mergeProviderParams]
    refine foldl_dset_of_not_bound _ _ _ (fun v hv => ?_)
    rcases List.mem_filter.mp hv with ⟨hmem, hok⟩
    exact absurd (hall v hmem) (by simpa using hok)
  · intro v hmem hv huniq
    rw [mergeProviderParams]
    refine foldl_dset_of_bound _ _ _ _ (List.mem_filter.mpr ⟨hmem, by simpa using hv⟩)
      (fun v2 hv2 => huniq v2 (List.mem_filter.mp hv2).1)

/-- Witness for C10: over a base dict holding the validated
`max_new_tokens = 512`, the provider override `max_new_tokens = -5` (not even a
valid token count — no re-validation happens) replaces the value, while an unset
(`None`) `top_p` override is dropped, leaving the base dict's absence of `top_p`
intact. -/
theorem merge_provider_params_spec_witness :
    mergeProviderParams (dset dempty "max_new_tokens" (PyValue.int 512))
      [("max_new_tokens", PyValue.int (-5)), ("top_p", PyValue.none)]
      "max_new_tokens" = some (PyValue.int (-5)) ∧
    mergeProviderParams (dset dempty "max_new_tokens" (PyValue.int 512))
      [("max_new_tokens", PyValue.int (-5)), ("top_p", PyValue.none)]
      "top_p" = dset dempty "max_new_tokens" (PyValue.int 512) "top_p" :=
  ⟨(merge_provider_params_spec _ _ "max_new_tokens").2 (PyValue.int (-5))
      (by simp) (by simp) (by intro v2 hv2; simpa using hv2),
    (merge_provider_params_spec _ _ "top_p").1 (by intro v hv; simpa using hv)⟩

/-- Retrying a body that fails identically on every attempt makes all 3 attempts,
performs both backoff waits, and re-raises the error unchanged. -/
theorem retryTrace_const_error {ε α : Type} (e : ε) :
    retryTrace (fun _ => (Except.error e : Except ε α)) =
      { result := Except.error e, attempts := 3, waits := [hfWait 0, hfWait 1] } := by
  simp [retryTrace, stop_after_attempt, retryGo]

/-- C2 (amended): an empty prompt fails each attempt, before any backend call,
with the `InvalidPromptError` naming the provider; a non-positive `max_tokens`
fails each attempt, before any backend call, with the `ValidationError` naming
the offending value and the provider.  However, because the `@retry` decorator
wraps the whole `forward` method and tenacity's default condition retries every
exception, the failure is not immediate: 3 total attempts are made (the
validation re-runs and fails identically) before the error is re-raised
unchanged. -/
theorem hf_invalid_input_spec (deps : HFDeps) (request : ChatRequest) :
    (request.prompt = "" →
      (forwardAttempt deps request).1 = Except.error (HFError.invalidPrompt
        "HuggingFace prompt cannot be empty." "HuggingFace" deps.modelName) ∧
      (forwardAttempt deps request).2.remoteCalls = [] ∧
      (forwardAttempt deps request).2.localCalls = 0 ∧
      (forwardRetried deps request).result = Except.error (HFError.invalidPrompt
        "HuggingFace prompt cannot be empty." "HuggingFace" deps.modelName) ∧
      (forwardRetried deps request).attempts = 3) ∧
    (∀ m : ℤ, request.prompt ≠ "" → request.max_tokens = some m → m ≤ 0 →
      (forwardAttempt deps request).1 = Except.error (HFError.validationError
        ("max_tokens must be a positive integer, got " ++ toString m) "HuggingFace") ∧
      (forwardAttempt deps request).2.remoteCalls = [] ∧
      (forwardAttempt deps request).2.localCalls = 0 ∧
      (forwardRetried deps request).result = Except.error (HFError.validationError
        ("max_tokens must be a positive integer, got " ++ toString m) "HuggingFace") ∧
      (forwardRetried deps request).attempts = 3) := by
  constructor
  · intro h
    have ha : forwardAttempt deps request = (Except.error (HFError.invalidPrompt
        "HuggingFace prompt cannot be empty." "HuggingFace" deps.modelName),
        emptyTrace) := by
      rw [forwardAttempt, if_pos h]
    have hr : forwardRetried deps request =
        { result := Except.error (HFError.invalidPrompt
            "HuggingFace prompt cannot be empty." "HuggingFace" deps.modelName),
          attempts := 3, waits := [hfWait 0, hfWait 1] } := by
      rw [forwardRetried]
      simp only [ha]
      exact retryTrace_const_error _
    refine ⟨by rw [ha], by rw [ha]; rfl, by rw [ha]; rfl, by rw [hr], by rw [hr]⟩
  · intro m h1 h2 h3
    have hmk : mkHuggingFaceChatParameters request = Except.error
        (HFError.validationError
          ("max_tokens must be a positive integer, got " ++ toString m)
          "HuggingFace") := by
      rw [mkHuggingFaceChatParameters]
      simp [h2, h3]
    have ha : forwardAttempt deps request = (Except.error (HFError.validationError
        ("max_tokens must be a positive integer, got " ++ toString m)
        "HuggingFace"), emptyTrace) := by
      rw [forwardAttempt, if_neg h1, hmk]
    have hr : forwardRetried deps request =
        { result := Except.error (HFError.validationError
            ("max_tokens must be a positive integer, got " ++ toString m)
            "HuggingFace"),
          attempts := 3, waits := [hfWait 0, hfWait 1] } := by
      rw [forwardRetried]
      simp only [ha]
      exact retryTrace_const_error _
    refine ⟨by rw [ha], by rw [ha]; rfl, by rw [ha]; rfl, by rw [hr], by rw [hr]⟩

/-- Witness for C2's amended theorem at concrete inputs: the empty-prompt request
and the `max_tokens = 0` request, against fully working collaborators. -/
theorem hf_invalid_input_spec_witness :
    ((forwardAttempt depsOk reqEmptyPrompt).1 = Except.error (HFError.invalidPrompt
        "HuggingFace prompt cannot be empty." "HuggingFace" depsOk.modelName) ∧
      (forwardAttempt depsOk reqEmptyPrompt).2.remoteCalls = [] ∧
      (forwardAttempt depsOk reqEmptyPrompt).2.localCalls = 0 ∧
      (forwardRetried depsOk reqEmptyPrompt).result = Except.error
        (HFError.invalidPrompt "HuggingFace prompt cannot be empty." "HuggingFace"
          depsOk.modelName) ∧
      (forwardRetried depsOk reqEmptyPrompt).attempts = 3) ∧
    ((forwardAttempt depsOk reqZeroTokens).1 = Except.error (HFError.validationError
        ("max_tokens must be a positive integer, got " ++ toString (0 : ℤ))
        "HuggingFace") ∧
      (forwardAttempt depsOk reqZeroTokens).2.remoteCalls = [] ∧
      (forwardAttempt depsOk reqZeroTokens).2.localCalls = 0 ∧
      (forwardRetried depsOk reqZeroTokens).result = Except.error
        (HFError.validationError
          ("max_tokens must be a positive integer, got " ++ toString (0 : ℤ))
          "HuggingFace") ∧
      (forwardRetried depsOk reqZeroTokens).attempts = 3) :=
  ⟨(hf_invalid_input_spec depsOk reqEmptyPrompt).1 rfl,
    (hf_invalid_input_spec depsOk reqZeroTokens).2 0 (by decide) rfl (by decide)⟩

/-- C2 (counterexample to the claim as stated): the claim requires an invalid
input to "fail immediately ... with no retry attempts made", i.e. a single
attempt and no backoff waiting.  On the empty-prompt request the code instead
makes 3 attempts and performs the backoff waits of 1 and 2 time-units before
re-raising the error. -/
theorem hf_invalid_input_retry_counterexample :
    (forwardRetried depsOk reqEmptyPrompt).attempts = 3 ∧
    ¬ (forwardRetried depsOk reqEmptyPrompt).attempts = 1 ∧
    (forwardRetried depsOk reqEmptyPrompt).waits = [1, 2] ∧
    (forwardRetried depsOk reqEmptyPrompt).result = Except.error
      (HFError.invalidPrompt "HuggingFace prompt cannot be empty." "HuggingFace"
        "mistralai/Mistral-7B-Instruct-v0.2") := by
  refine ⟨rfl, by decide, by decide, rfl⟩

/-- C8 (refuted — code bug): on the remote path the claim says `forward` extracts
a timeout defaulting to 30 when unset and enforces it on the single backend call.
On the request that leaves `timeout` unset, the code instead pops the value
`None` (the normalizer always inserts the `"timeout"` key, so the `pop` default
30 can never apply), and the popped value is then discarded: exactly one backend
call is issued and its argument dict carries no `"timeout"` key at all — no
timeout is enforced on `client.text_generation`.  The last conjunct checks the
part of the claim the code does satisfy: the raw textual result is treated as
`generated_text`. -/
theorem hf_remote_timeout_dropped :
    (forwardAttempt depsOk reqNoTimeout).2.poppedTimeout = some PyValue.none ∧
    some PyValue.none ≠ some (PyValue.int 30) ∧
    (forwardAttempt depsOk reqNoTimeout).2.remoteCalls.length = 1 ∧
    ((forwardAttempt depsOk reqNoTimeout).2.remoteCalls.map
      (fun r => r.kwargs "timeout")) = [Option.none] ∧
    ((forwardAttempt depsOk reqNoTimeout).2.remoteCalls.map
      (fun r => r.kwargs "max_new_tokens")) = [some (PyValue.int 512)] ∧
    ((forwardAttempt depsOk reqNoTimeout).1.toOption.map ChatResponse.data) =
      some "out" := by
  refine ⟨rfl, by decide, rfl, rfl, rfl, rfl⟩
